import Mathlib

/-!
Verification of the moauth OAuth 2.0 authorization server against its
specification.  The definitions below are a shallow embedding of the C
sources (src/moauthd/client.c, src/moauthd/server.c, the moauthd.h header
and the client library authorize.c); strings are modelled as Lean `String`
over their ASCII characters, machine integers as `Nat`/`Int` with explicit
`% 2 ^ 32` where 32-bit wraparound matters, and NULL-pointer dereferences as
an explicit crash result.  Functions of the repository that are declared but
whose implementation file is not part of the sources here (the token store
in token.c) are modelled from the specification and marked as such.
-/

set_option maxRecDepth 100000

namespace Moauth

/-! ## Bytes, SHA-256 and base64 (cupsHashData "sha2-256" and httpEncode64_2)

The PKCE code-challenge derivation used by both the client library
(authorize.c lines 82-83) and the server (client.c lines 914-915) is
`cupsHashData("sha2-256", s)` followed by `httpEncode64_2` of the 32-byte
digest.  These are CUPS library routines; they are embedded here as pure
functions: SHA-256 exactly per FIPS 180-4, and httpEncode64_2's standard
base64 alphabet with trailing `=` padding.  All strings involved are ASCII,
so the byte sequence hashed is the list of character codes. -/

/-- The bytes of an ASCII string (the `char*` contents hashed by cupsHashData). -/
def strBytes (s : String) : List Nat :=
  s.toList.map Char.toNat

/-- 32-bit right rotation on a value below `2 ^ 32`. -/
def rotr32 (x n : Nat) : Nat :=
  ((x >>> n) ||| (x <<< (32 - n))) % 4294967296

/-- SHA-256 small sigma 0. -/
def ssig0 (x : Nat) : Nat := (rotr32 x 7) ^^^ (rotr32 x 18) ^^^ (x >>> 3)

/-- SHA-256 small sigma 1. -/
def ssig1 (x : Nat) : Nat := (rotr32 x 17) ^^^ (rotr32 x 19) ^^^ (x >>> 10)

/-- SHA-256 big sigma 0. -/
def bsig0 (x : Nat) : Nat := (rotr32 x 2) ^^^ (rotr32 x 13) ^^^ (rotr32 x 22)

/-- SHA-256 big sigma 1. -/
def bsig1 (x : Nat) : Nat := (rotr32 x 6) ^^^ (rotr32 x 11) ^^^ (rotr32 x 25)

/-- The SHA-256 round constants, written in decimal. -/
def sha256K : List Nat :=
  [1116352408, 1899447441, 3049323471, 3921009573, 961987163, 1508970993,
   2453635748, 2870763221, 3624381080, 310598401, 607225278, 1426881987,
   1925078388, 2162078206, 2614888103, 3248222580, 3835390401, 4022224774,
   264347078, 604807628, 770255983, 1249150122, 1555081692, 1996064986,
   2554220882, 2821834349, 2952996808, 3210313671, 3336571891, 3584528711,
   113926993, 338241895, 666307205, 773529912, 1294757372, 1396182291,
   1695183700, 1986661051, 2177026350, 2456956037, 2730485921, 2820302411,
   3259730800, 3345764771, 3516065817, 3600352804, 4094571909, 275423344,
   430227734, 506948616, 659060556, 883997877, 958139571, 1322822218,
   1537002063, 1747873779, 1955562222, 2024104815, 2227730452, 2361852424,
   2428436474, 2756734187, 3204031479, 3329325298]

/-- The SHA-256 initial hash value, written in decimal. -/
def sha256H0 : List Nat :=
  [1779033703, 3144134277, 1013904242, 2773480762, 1359893119, 2600822924,
   528734635, 1541459225]

/-- Big-endian 32-bit words from a list of bytes. -/
def beWords : List Nat → List Nat
  | b0 :: b1 :: b2 :: b3 :: rest => (((b0 * 256 + b1) * 256 + b2) * 256 + b3) :: beWords rest
  | _ => []

/-- The eight big-endian bytes of a 64-bit length value. -/
def beBytes8 (n : Nat) : List Nat :=
  [56, 48, 40, 32, 24, 16, 8, 0].map fun s => (n >>> s) % 256

/-- SHA-256 message padding: append 0x80, zeros to 56 mod 64, and the bit length. -/
def sha256pad (msg : List Nat) : List Nat :=
  let z := (119 - (msg.length % 64)) % 64
  msg ++ [0x80] ++ List.replicate z 0 ++ beBytes8 (8 * msg.length)

/-- Extend the sixteen block words to the 64-entry message schedule. -/
def sha256schedule (ws : List Nat) : List Nat :=
  (List.range 48).foldl
    (fun w i =>
      w ++ [(ssig1 (w.getD (i + 14) 0) + w.getD (i + 9) 0 + ssig0 (w.getD (i + 1) 0) + w.getD i 0) % 4294967296])
    ws

/-- One SHA-256 compression round on the eight-word working state. -/
def sha256round (st : List Nat) (k wi : Nat) : List Nat :=
  let a := st.getD 0 0
  let b := st.getD 1 0
  let c := st.getD 2 0
  let d := st.getD 3 0
  let e := st.getD 4 0
  let f := st.getD 5 0
  let g := st.getD 6 0
  let h := st.getD 7 0
  let ch := (e &&& f) ^^^ ((e ^^^ 4294967295) &&& g)
  let maj := (a &&& b) ^^^ (a &&& c) ^^^ (b &&& c)
  let t1 := (h + bsig1 e + ch + k + wi) % 4294967296
  let t2 := (bsig0 a + maj) % 4294967296
  [(t1 + t2) % 4294967296, a, b, c, (d + t1) % 4294967296, e, f, g]

/-- SHA-256 of one padded 64-byte block, updating the hash state. -/
def sha256block (h : List Nat) (blk : List Nat) : List Nat :=
  let w := sha256schedule (beWords blk)
  let st := (sha256K.zip w).foldl (fun st kw => sha256round st kw.1 kw.2) h
  (h.zip st).map fun p => (p.1 + p.2) % 4294967296

/-- Process `n` 64-byte blocks of the padded message, updating the hash state
with `sha256block` for each. -/
def sha256iter : Nat → List Nat → List Nat → List Nat
  | 0, h, _ => h
  | n + 1, h, l => sha256iter n (sha256block h (l.take 64)) (l.drop 64)

/-- SHA-256 digest (32 bytes) of a byte list, per FIPS 180-4 (cupsHashData
"sha2-256"); the padded message consists of `length / 64` blocks of 64 bytes. -/
def sha256 (msg : List Nat) : List Nat :=
  let pm := sha256pad msg
  let h := sha256iter (pm.length / 64) sha256H0 pm
  (h.map fun x => [(x >>> 24) % 256, (x >>> 16) % 256, (x >>> 8) % 256, x % 256]).flatten

/-- The standard base64 alphabet used by httpEncode64_2. -/
def b64chars : List Char :=
  "ABCDEFGHIJKLMNOPQRSTUVWXYZabcdefghijklmnopqrstuvwxyz0123456789+/".toList

/-- One base64 digit. -/
def b64c (n : Nat) : Char := b64chars.getD n 'A'

/-- httpEncode64_2 encoding loop (standard alphabet, `=` padding), assuming the
output buffer holds the full encoding, as at both call sites (buffers of 45
and 64 bytes for the 44-character encoding of a 32-byte digest). -/
def httpEncode64chars : List Nat → List Char
  | [] => []
  | [b0] =>
      [b64c ((b0 % 256) >>> 2), b64c (((b0 % 256) <<< 4) &&& 63), '=', '=']
  | [b0, b1] =>
      [b64c ((b0 % 256) >>> 2), b64c ((((b0 % 256) <<< 4) ||| ((b1 % 256) >>> 4)) &&& 63),
       b64c (((b1 % 256) <<< 2) &&& 63), '=']
  | b0 :: b1 :: b2 :: rest =>
      b64c ((b0 % 256) >>> 2) :: b64c ((((b0 % 256) <<< 4) ||| ((b1 % 256) >>> 4)) &&& 63) ::
      b64c ((((b1 % 256) <<< 2) ||| ((b2 % 256) >>> 6)) &&& 63) :: b64c (b2 % 256 &&& 63) ::
      httpEncode64chars rest

/-- httpEncode64_2 as a string. -/
def httpEncode64 (bs : List Nat) : String := String.mk (httpEncode64chars bs)

/-- Modelled from the spec: the URL-safe base64 alphabet of `base64url` (RFC 4648
section 5, as RFC 7636 requires for PKCE), for comparison with the code's
derivation.  It differs from the standard alphabet in the last two digits. -/
def b64urlChars : List Char :=
  "ABCDEFGHIJKLMNOPQRSTUVWXYZabcdefghijklmnopqrstuvwxyz0123456789-_".toList

/-- Modelled from the spec: one base64url digit. -/
def b64u (n : Nat) : Char := b64urlChars.getD n 'A'

/-- Modelled from the spec: `base64url` encoding without padding, the encoding the
spec names in `base64url(sha256(code_verifier))`.  Used only to compare the
spec's wording with the derivation the code performs. -/
def base64urlChars : List Nat → List Char
  | [] => []
  | [b0] =>
      [b64u ((b0 % 256) >>> 2), b64u (((b0 % 256) <<< 4) &&& 63)]
  | [b0, b1] =>
      [b64u ((b0 % 256) >>> 2), b64u ((((b0 % 256) <<< 4) ||| ((b1 % 256) >>> 4)) &&& 63),
       b64u (((b1 % 256) <<< 2) &&& 63)]
  | b0 :: b1 :: b2 :: rest =>
      b64u ((b0 % 256) >>> 2) :: b64u ((((b0 % 256) <<< 4) ||| ((b1 % 256) >>> 4)) &&& 63) ::
      b64u ((((b1 % 256) <<< 2) ||| ((b2 % 256) >>> 6)) &&& 63) :: b64u (b2 % 256 &&& 63) ::
      base64urlChars rest

/-- Modelled from the spec: `base64url(sha256(v))`, the derivation the spec's words
describe. -/
def specChallenge (v : String) : String := String.mk (base64urlChars (sha256 (strBytes v)))

/-- The code challenge the client helper derives: authorize.c lines 82-83,
`cupsHashData("sha2-256", code_verifier)` then `httpEncode64_2` of the digest. -/
def clientCodeChallenge (v : String) : String := httpEncode64 (sha256 (strBytes v))

/-- The value the server recomputes from `code_verifier` at /token:
client.c lines 911-915, `cupsHashData("sha2-256", verifier)` then
`httpEncode64_2` of the digest. -/
def serverRecompute (v : String) : String := httpEncode64 (sha256 (strBytes v))

/-! ## Application registry (server.c, moauthd.h)

`moauthd_application_t` from moauthd.h; the registry is a `cups_array_t` with
comparator `compare_applications`.  Lookup through `cupsArrayFind` returns an
element the comparator ranks equal to the key, embedded here as the first such
element of the list. -/

/-- moauthd_application_t: a registered client (moauthd.h lines 35-43). -/
structure Application where
  client_id : String
  redirect_uri : String
  client_name : Option String
  client_uri : Option String
  logo_uri : Option String
  tos_uri : Option String
deriving DecidableEq

/-- compare_applications (server.c lines 628-634): strcmp on `client_id` only;
`redirect_uri` does not participate in the comparison. -/
def compare_applications (a b : Application) : Ordering :=
  compare a.client_id b.client_id

/-- moauthdFindApplication (server.c lines 471-504).  With a `redirect_uri` the
code performs `cupsArrayFind` with a key holding both fields, but the array's
comparator is `compare_applications`, which ranks applications by `client_id`
alone; without a `redirect_uri` it scans for the first matching `client_id`. -/
def moauthdFindApplication (apps : List Application) (client_id : String)
    (redirect_uri : Option String) : Option Application :=
  match redirect_uri with
  | some _ => apps.find? fun a => compare_applications a { client_id := client_id, redirect_uri := redirect_uri.getD "", client_name := none, client_uri := none, logo_uri := none, tos_uri := none } = .eq
  | none => apps.find? fun a => a.client_id == client_id

/-! ## Token store (moauthd.h; token.c is not among the sources)

`moauthd_token_t` is declared in moauthd.h lines 70-91.  The operations
moauthdCreateToken / moauthdFindToken / moauthdDeleteToken live in token.c,
which is not part of the sources here; they are modelled from the
specification (section 4.2). -/

/-- moauthd_toktype_t (moauthd.h lines 70-75). -/
inductive Toktype
  | access
  | grant
  | renewal
deriving DecidableEq

/-- The strings of the `types` table in do_introspect (client.c lines 677-682),
indexed by the token type enumeration. -/
def toktypeName : Toktype → String
  | .access => "access"
  | .grant => "grant"
  | .renewal => "renewal"

/-- moauthd_token_t (moauthd.h lines 78-91).  `application` is a pointer and may
be NULL (password-grant access tokens), embedded as an `Option`. -/
structure Token where
  type : Toktype
  token : String
  challenge : Option String
  user : String
  application : Option Application
  scopes : Option String
  uid : Nat
  gid : Nat
  created : Int
  expires : Int
deriving DecidableEq

/-- Modelled from the spec: `Find(id)` of the Token Store (section 4.2,
implemented in the repository's token.c, which is not among the sources):
under a read lock, return the live token whose id equals the argument. -/
def moauthdFindToken (tokens : List Token) (id : String) : Option Token :=
  tokens.find? fun t => t.token == id

/-- Modelled from the spec: `Delete` of the Token Store (section 4.2, token.c not
among the sources): under a write lock, remove the entry with the token's id
(`cupsArrayRemove`); removing an absent entry changes nothing. -/
def moauthdDeleteToken (tokens : List Token) (t : Token) : List Token :=
  tokens.eraseP fun u => u.token == t.token

/-- Modelled from the spec: `Create(kind, application?, user, scopes)` of the
Token Store (section 4.2, token.c not among the sources): build a token with a
fresh unpredictable id (passed in as `newId` with freshness stated as a
hypothesis where needed), `created_at = now` and
`expires_at = created_at + (grant ? MaxGrantLife : MaxTokenLife)`, and append
it to the store under a write lock. -/
def moauthdCreateToken (type : Toktype) (application : Option Application)
    (user : String) (scopes : Option String) (newId : String) (uid gid : Nat)
    (now max_grant_life max_token_life : Int) : Token :=
  { type := type, token := newId, challenge := none, user := user,
    application := application, scopes := scopes, uid := uid, gid := gid,
    created := now,
    expires := now + (if type = .grant then max_grant_life else max_token_life) }

/-! ## The /token endpoint (do_token, client.c lines 795-988) -/

/-- The form variables do_token reads from the request body
(client.c lines 821-829); a missing variable is `none` (NULL). -/
structure TokenRequest where
  client_id : Option String
  code : Option String
  grant_type : Option String
  password : Option String
  redirect_uri : Option String
  username : Option String
  scope : Option String
  code_verifier : Option String
deriving DecidableEq

/-- The JSON object of a successful /token response (client.c lines 942-946). -/
structure TokenOkJson where
  access_token : String
  token_type : String
  expires_in : Int
deriving DecidableEq

/-- The observable outcome of do_token: a 400 with no body, or a 200 with the
JSON object. -/
inductive TokenResult
  | badRequest
  | ok (json : TokenOkJson)
deriving DecidableEq

/-- An invocation of the Authenticator (moauthdAuthenticateUser), recording the
`username` and `password` arguments, either of which may be NULL. -/
def AuthCall := Option String × Option String
deriving instance DecidableEq for AuthCall

/-- The write-locked tail of the authorization_code exchange once the grant
token was looked up and validated (client.c lines 932-939): create the access
token from the grant's user and scopes, then delete the grant token. -/
def exchangeFinish (app : Application) (g : Token) (now : Int) (newId : String)
    (newUid newGid : Nat) (max_grant_life max_token_life : Int)
    (tokens : List Token) : TokenResult × List Token :=
  let access := moauthdCreateToken .access (some app) g.user g.scopes newId
    newUid newGid now max_grant_life max_token_life
  (.ok { access_token := newId, token_type := "access", expires_in := max_token_life },
   moauthdDeleteToken (tokens ++ [access]) g)

/-- Validation of a looked-up grant token in do_token (client.c lines 891-939):
application binding, expiry (an expired grant is deleted), and the PKCE
challenge, then the exchange tail.  The checks run on the thread's local
pointer to the grant token. -/
def exchangeValidate (app : Application) (g : Token) (verifier : Option String)
    (now : Int) (newId : String) (newUid newGid : Nat)
    (max_grant_life max_token_life : Int) (tokens : List Token) :
    TokenResult × List Token :=
  if g.application ≠ some app then (.badRequest, tokens)
  else if g.expires ≤ now then (.badRequest, moauthdDeleteToken tokens g)
  else
    match g.challenge with
    | some c =>
        (match verifier with
         | some v =>
             if serverRecompute v ≠ c then (.badRequest, tokens)
             else exchangeFinish app g now newId newUid newGid max_grant_life max_token_life tokens
         | none => (.badRequest, tokens))
    | none => exchangeFinish app g now newId newUid newGid max_grant_life max_token_life tokens

/-- The post-lookup remainder of an authorization_code exchange
(client.c lines 884-939): a missing grant token is a 400, otherwise the
validation and exchange tail run. -/
def exchangeStep (app : Application) (g : Option Token) (verifier : Option String)
    (now : Int) (newId : String) (newUid newGid : Nat)
    (max_grant_life max_token_life : Int) (tokens : List Token) :
    TokenResult × List Token :=
  match g with
  | none => (.badRequest, tokens)
  | some g => exchangeValidate app g verifier now newId newUid newGid max_grant_life max_token_life tokens

/-- do_token (client.c lines 795-988).  `authenticate` is the external
Authenticator capability (moauthdAuthenticateUser) with its possibly-NULL
arguments; its invocations are returned as a trace.  `newId` is the fresh
token id the store would generate, `newUid`/`newGid` the numeric identity the
store records.  The result is `none` when the code's behaviour is undefined
(a successful password authentication with a NULL username reaches
`strdup(NULL)` in the token store). -/
def do_token (authenticate : Option String → Option String → Bool)
    (apps : List Application) (tokens : List Token)
    (max_grant_life max_token_life : Int) (req : TokenRequest) (now : Int)
    (newId : String) (newUid newGid : Nat) :
    Option (TokenResult × List Token) × List AuthCall :=
  match req.grant_type with
  | none => (some (.badRequest, tokens), [])
  | some gt =>
    if gt ≠ "authorization_code" ∧ gt ≠ "password" then
      (some (.badRequest, tokens), [])
    else if gt = "password" ∧ req.username = none ∧ req.password = none then
      (some (.badRequest, tokens), [])
    else if gt ≠ "password" ∧ (req.client_id = none ∨ req.code = none) then
      (some (.badRequest, tokens), [])
    else if gt = "password" then
      if authenticate req.username req.password = false then
        (some (.badRequest, tokens), [(req.username, req.password)])
      else
        match req.username with
        | none => (none, [(req.username, req.password)])
        | some u =>
            let access := moauthdCreateToken .access none u req.scope newId
              newUid newGid now max_grant_life max_token_life
            (some (.ok { access_token := newId, token_type := "access", expires_in := max_token_life },
                   tokens ++ [access]),
             [(req.username, req.password)])
    else
      match req.client_id, req.code with
      | some cid, some codev =>
          (match moauthdFindApplication apps cid req.redirect_uri with
           | none => some (.badRequest, tokens)
           | some app =>
               some (exchangeStep app (moauthdFindToken tokens codev)
                 req.code_verifier now newId newUid newGid max_grant_life max_token_life tokens),
           [])
      | _, _ => (some (.badRequest, tokens), [])

/-- The PKCE condition of do_token (client.c lines 907-930) as a proposition on
the stored challenge and the request's verifier: no stored challenge, or a
present verifier whose recomputed value equals the stored challenge. -/
def challengePasses (challenge verifier : Option String) : Prop :=
  match challenge with
  | none => True
  | some c => ∃ v, verifier = some v ∧ serverRecompute v = c

/-- Two /token authorization_code exchanges of the same request running in
parallel worker threads, in the interleaving in which both grant lookups
(each under the tokens read lock, client.c line 884 via moauthdFindToken)
complete before either thread runs its validation, access-token creation and
grant deletion (separate write-locked regions, client.c lines 891-939).  The
locking in do_token permits this interleaving because the lookup holds only a
read lock and each later mutation takes its own write lock. -/
def twoParallelExchanges (apps : List Application) (tokens : List Token)
    (max_grant_life max_token_life : Int) (cid codev : String)
    (redirect_uri verifier : Option String) (now : Int)
    (newId1 newId2 : String) (newUid newGid : Nat) :
    TokenResult × TokenResult × List Token :=
  match moauthdFindApplication apps cid redirect_uri with
  | none => (.badRequest, .badRequest, tokens)
  | some app =>
      let l1 := moauthdFindToken tokens codev
      let l2 := moauthdFindToken tokens codev
      let s1 := exchangeStep app l1 verifier now newId1 newUid newGid max_grant_life max_token_life tokens
      let s2 := exchangeStep app l2 verifier now newId2 newUid newGid max_grant_life max_token_life s1.2
      (s1.1, s2.1, s2.2)

/-! ## The /introspect endpoint (do_introspect, client.c lines 659-788) -/

/-- The JSON object of a successful /introspect response
(client.c lines 741-747). -/
structure IntroJson where
  active : Bool
  scope : Option String
  client_id : String
  username : String
  token_type : String
  exp : Int
  iat : Int
deriving DecidableEq

/-- The observable outcome of do_introspect; `crash` marks undefined behaviour
(the NULL-pointer dereference of `token->application` at client.c line 743). -/
inductive IntroResult
  | unauthorized
  | forbidden
  | badRequest
  | crash
  | ok (json : IntroJson)
deriving DecidableEq

/-- do_introspect (client.c lines 659-788): require an authenticated caller,
check the IntrospectGroup membership when configured, require the `token`
variable, look the token up, and build the JSON response.  Building the
response reads `token->application->client_id` without a NULL check
(line 743), so a token without an application crashes. -/
def do_introspect (tokens : List Token) (introspect_group : Option Nat)
    (remote_user : String) (remote_groups : List Nat)
    (token_var : Option String) (now : Int) : IntroResult :=
  if remote_user = "" then .unauthorized
  else if (match introspect_group with
           | some grp => !(remote_groups.contains grp)
           | none => false : Bool) then .forbidden
  else
    match token_var with
    | none => .badRequest
    | some tv =>
        match moauthdFindToken tokens tv with
        | none => .badRequest
        | some t =>
            match t.application with
            | none => .crash
            | some app =>
                .ok { active := decide (now < t.expires), scope := t.scopes,
                      client_id := app.client_id, username := t.user,
                      token_type := toktypeName t.type, exp := t.expires,
                      iat := t.created }

/-! ## Authorization-header processing (moauthdRunClient, client.c lines 244-374) -/

/-- A passwd entry as returned by getpwnam (an external OS capability). -/
structure PwEntry where
  uid : Nat
  gid : Nat
deriving DecidableEq

/-- Which branch of the Authorization-header chain handled the request:
no header, `Basic`, `Bearer`, or the unsupported-scheme branch that logs the
scheme name (client.c lines 354-367). -/
inductive Handled
  | noHeader
  | basic
  | bearer
  | unsupported (scheme : String)
deriving DecidableEq

/-- The outcome of the Authorization-header processing: the identity fields of
the client object, the token store after a possible expired-token removal, and
whether the request is answered 401 and the loop left
(client.c lines 369-373). -/
structure AuthOutcome where
  handled : Handled
  remote_user : String
  remote_uid : Option Nat
  remote_token : Option Token
  tokens : List Token
  unauthorized : Bool
deriving DecidableEq

/-- The isspace test of ctype.h, applied by the header parsing. -/
def isSpaceChar (c : Char) : Bool :=
  c == ' ' || c == '\t' || c == '\n' || c == '\x0b' || c == '\x0c' || c == '\r'

/-- The strncmp test of the scheme keyword: the header characters open with the
given keyword characters. -/
def leadsWith : List Char → List Char → Bool
  | [], _ => true
  | _ :: _, [] => false
  | p :: ps, c :: cs => p == c && leadsWith ps cs

/-- Splitting of the decoded Basic credentials at the first colon
(`strchr(username, ':')`, client.c line 265). -/
def splitColonChars : List Char → Option (List Char × List Char)
  | [] => none
  | c :: rest =>
      if c = ':' then some ([], rest)
      else (splitColonChars rest).map fun p => (c :: p.1, p.2)

/-- Splitting of a string at the first colon. -/
def splitColon (s : String) : Option (String × String) :=
  (splitColonChars s.toList).map fun p => (String.mk p.1, String.mk p.2)

/-- The scheme name the unsupported-scheme branch logs: the header is copied
into a 32-byte buffer (`strncpy`, 31 characters) and cut at the first space or
tab (`strtok(scheme, " \t")`, client.c lines 360-364). -/
def schemeOf (hdr : String) : String :=
  String.mk (((hdr.toList.take 31).dropWhile fun c => c == ' ' || c == '\t').takeWhile
    fun c => !(c == ' ' || c == '\t'))

/-- The Authorization-header processing of moauthdRunClient
(client.c lines 244-374).  `decode64` models httpDecode64_2, `authenticate`
the Authenticator (moauthdAuthenticateUser with non-NULL arguments here) and
`getpwnam` the OS user database, all external capabilities.  A `Basic` header
is decoded, split and authenticated; a `Bearer` header is looked up in the
token store, an expired token being removed on sight and a wrong-kind token
treated as missing; any other scheme is logged and attaches nothing.  When a
header was present but no identity was attached, the request is answered 401
(lines 369-373). -/
def runClientAuthHdr (decode64 : String → String)
    (authenticate : String → String → Bool)
    (getpwnam : String → Option PwEntry)
    (tokens : List Token) (now : Int) (hdr : String) :
    AuthOutcome :=
    if hdr = "" then
      { handled := .noHeader, remote_user := "", remote_uid := none,
        remote_token := none, tokens := tokens, unauthorized := false }
    else if leadsWith "Basic ".toList hdr.toList then
      let rest := String.mk ((hdr.toList.drop 6).dropWhile isSpaceChar)
      match splitColon (decode64 rest) with
      | none =>
          { handled := .basic, remote_user := "", remote_uid := none,
            remote_token := none, tokens := tokens, unauthorized := true }
      | some (u, p) =>
          if authenticate u p then
            match getpwnam u with
            | some pw =>
                { handled := .basic, remote_user := u, remote_uid := some pw.uid,
                  remote_token := none, tokens := tokens, unauthorized := false }
            | none =>
                { handled := .basic, remote_user := "", remote_uid := none,
                  remote_token := none, tokens := tokens, unauthorized := true }
          else
            { handled := .basic, remote_user := "", remote_uid := none,
              remote_token := none, tokens := tokens, unauthorized := true }
    else if leadsWith "Bearer ".toList hdr.toList then
      let rest := String.mk ((hdr.toList.drop 7).dropWhile isSpaceChar)
      match moauthdFindToken tokens rest with
      | some t =>
          if t.expires ≤ now then
            { handled := .bearer, remote_user := "", remote_uid := none,
              remote_token := none, tokens := moauthdDeleteToken tokens t,
              unauthorized := true }
          else if t.type ≠ .access then
            { handled := .bearer, remote_user := "", remote_uid := none,
              remote_token := none, tokens := tokens, unauthorized := true }
          else
            { handled := .bearer, remote_user := t.user, remote_uid := some t.uid,
              remote_token := some t, tokens := tokens, unauthorized := false }
      | none =>
          { handled := .bearer, remote_user := "", remote_uid := none,
            remote_token := none, tokens := tokens, unauthorized := true }
    else
      { handled := .unsupported (schemeOf hdr), remote_user := "",
        remote_uid := none, remote_token := none, tokens := tokens,
        unauthorized := true }

/-- The Authorization-header processing for a whole request: a missing header
attaches nothing and continues; a present header is handled by
`runClientAuthHdr`. -/
def runClientAuth (decode64 : String → String)
    (authenticate : String → String → Bool)
    (getpwnam : String → Option PwEntry)
    (tokens : List Token) (now : Int) (authorization : Option String) :
    AuthOutcome :=
  match authorization with
  | none => { handled := .noHeader, remote_user := "", remote_uid := none,
              remote_token := none, tokens := tokens, unauthorized := false }
  | some hdr => runClientAuthHdr decode64 authenticate getpwnam tokens now hdr

/-! ## Configuration time values (get_seconds and load_config, server.c) -/

/-- The digit-consuming loop of strtol: accumulate decimal digits and return
the rest of the string. -/
def strtolDigits : List Char → Int → Int × List Char
  | c :: rest, acc =>
      if c.isDigit then strtolDigits rest (acc * 10 + ((c.toNat : Int) - 48))
      else (acc, c :: rest)
  | [], acc => (acc, [])

/-- strtol(value, &units, 10): skip leading white space, accept an optional
sign, consume decimal digits and return the value together with the remaining
characters (the `units` pointer). -/
def strtol10 (s : String) : Int × String :=
  match s.toList.dropWhile isSpaceChar with
  | '-' :: rest =>
      let p := strtolDigits rest 0
      (-p.1, String.mk p.2)
  | '+' :: rest =>
      let p := strtolDigits rest 0
      (p.1, String.mk p.2)
  | cs =>
      let p := strtolDigits cs 0
      (p.1, String.mk p.2)

/-- ASCII lower-casing of one character, as tolower applies it inside
strcasecmp. -/
def lowerChar (c : Char) : Char :=
  if 65 ≤ c.toNat ∧ c.toNat ≤ 90 then Char.ofNat (c.toNat + 32) else c

/-- strcasecmp equality: the strings agree after ASCII lower-casing. -/
def strCaseEq (a b : String) : Bool :=
  a.toList.map lowerChar == b.toList.map lowerChar

/-- get_seconds (server.c lines 689-708): parse the leading integer, then
require the units suffix to be `m`, `h`, `d` or `w` (strcasecmp); any other
suffix — including the empty suffix of a bare integer — yields -1. -/
def get_seconds (value : String) : Int :=
  let p := strtol10 value
  let tval := p.1
  let units := p.2
  if strCaseEq units "m" then tval * 60
  else if strCaseEq units "h" then tval * 3600
  else if strCaseEq units "d" then tval * 86400
  else if strCaseEq units "w" then tval * 604800
  else -1

/-- The outcome of one MaxGrantLife / MaxTokenLife configuration directive. -/
inductive ConfigResult
  | ok (seconds : Int)
  | failed
deriving DecidableEq

/-- The MaxGrantLife / MaxTokenLife handling of load_config
(server.c lines 871-914): a missing value or a `get_seconds` result below
zero makes configuration loading fail; otherwise the corresponding server
limit is set. -/
def maxLifeDirective (value : Option String) : ConfigResult :=
  match value with
  | none => .failed
  | some v => if get_seconds v < 0 then .failed else .ok (get_seconds v)

/-! ## The client helper moauthAuthorize (authorize.c lines 29-149) -/

/-- Lookup of a form variable by name (cupsGetOption over the option list;
names here are distinct, so list order is irrelevant). -/
def lookupVar (vars : List (String × String)) (name : String) : Option String :=
  (vars.find? fun p => p.1 == name).map fun p => p.2

/-- The form variables moauthAuthorize places in the authorization URL
(authorize.c lines 70-85): `response_type=code`, the client id and redirect
URI, the optional scope and state, and — when a code verifier is supplied —
`code_challenge` derived by the S256 transformation of lines 82-83. -/
def moauthAuthorize_vars (client_id redirect_uri : String)
    (state code_verifier scope : Option String) : List (String × String) :=
  let vars := [("response_type", "code"), ("client_id", client_id),
               ("redirect_uri", redirect_uri)]
  let vars := match scope with
              | some s => vars ++ [("scope", s)]
              | none => vars
  let vars := match state with
              | some s => vars ++ [("state", s)]
              | none => vars
  match code_verifier with
  | some v => vars ++ [("code_challenge", clientCodeChallenge v)]
  | none => vars

/-! ## Concrete instances used by witnesses and counterexamples -/

/-- The RFC 7636 reference code verifier quoted in the specification. -/
def rfc7636Verifier : String := "dBjftJeZ4CVP-mB92K27uhbUJU1p1r_wW1gFWFOEjXk"

/-- A registered application. -/
def sampleApp : Application :=
  { client_id := "app1", redirect_uri := "https://app/cb", client_name := none,
    client_uri := none, logo_uri := none, tos_uri := none }

/-- A grant token bound to `sampleApp`, without a PKCE challenge. -/
def sampleGrant : Token :=
  { type := .grant, token := "G", challenge := none, user := "alice",
    application := some sampleApp, scopes := some "private shared",
    uid := 1000, gid := 1000, created := 0, expires := 300 }

/-- A grant token carrying the challenge the client helper derives from the
RFC 7636 reference verifier. -/
def samplePkceGrant : Token :=
  { sampleGrant with challenge := some (clientCodeChallenge rfc7636Verifier) }

/-- A grant token carrying `base64url(sha256(verifier))` — the challenge a
standard RFC 7636 client would register — for the reference verifier. -/
def sampleGrantSpec : Token :=
  { sampleGrant with challenge := some (specChallenge rfc7636Verifier) }

/-- A resource-owner-password-grant access token: its application reference is
absent. -/
def samplePasswordToken : Token :=
  { type := .access, token := "T1", challenge := none, user := "alice",
    application := none, scopes := some "private shared",
    uid := 1000, gid := 1000, created := 0, expires := 604800 }

/-- An access token bound to `sampleApp`, stored under the id "A0". -/
def sampleStoredAccess : Token :=
  { type := .access, token := "A0", challenge := none, user := "alice",
    application := some sampleApp, scopes := some "private shared",
    uid := 1000, gid := 1000, created := 0, expires := 604800 }

/-! ## Helper lemmas on find?, filter and eraseP -/

theorem pred_of_filter_singleton {α : Type} (p : α → Bool) (g : α) (l : List α)
    (h : l.filter p = [g]) : p g = true := by
  have hg : g ∈ l.filter p := by rw [h]; exact List.mem_singleton_self g
  exact (List.mem_filter.mp hg).2

theorem find?_of_filter_singleton {α : Type} (p : α → Bool) (g : α) :
    ∀ l : List α, l.filter p = [g] → l.find? p = some g := by
  intro l
  induction l with
  | nil => intro h; simp at h
  | cons x xs ih =>
    intro h
    by_cases hx : p x = true
    · rw [List.filter_cons_of_pos hx] at h
      injection h with h1 h2
      rw [List.find?_cons_of_pos _ hx, h1]
    · rw [List.filter_cons_of_neg (by simpa using hx)] at h
      rw [List.find?_cons_of_neg _ (by simpa using hx)]
      exact ih h

theorem eraseP_append_find?_none {α : Type} (p : α → Bool) (a : α)
    (ha : p a = false) :
    ∀ l : List α, (l.filter p).length ≤ 1 → ((l ++ [a]).eraseP p).find? p = none := by
  intro l
  induction l with
  | nil =>
    intro _
    rw [List.nil_append, List.eraseP_cons_of_neg (by simp [ha]), List.eraseP_nil]
    rw [List.find?_cons_of_neg _ (by simp [ha])]
    rfl
  | cons x xs ih =>
    intro hlen
    by_cases hx : p x = true
    · rw [List.cons_append, List.eraseP_cons_of_pos hx]
      rw [List.find?_eq_none]
      intro y hy
      rcases List.mem_append.mp hy with h1 | h2
      · have hlen' : (xs.filter p).length = 0 := by
          rw [List.filter_cons_of_pos hx] at hlen
          simp only [List.length_cons] at hlen
          omega
        have hxs : xs.filter p = [] := List.length_eq_zero.mp hlen'
        have hy' := List.filter_eq_nil_iff.mp hxs y h1
        simpa using hy'
      · have hya : y = a := by simpa using h2
        subst hya
        simp [ha]
    · rw [List.cons_append, List.eraseP_cons_of_neg (by simpa using hx),
        List.find?_cons_of_neg _ (by simpa using hx)]
      apply ih
      rw [List.filter_cons_of_neg (by simpa using hx)] at hlen
      exact hlen

theorem length_filter_le_one_of_singleton {α : Type} (p : α → Bool) (g : α)
    (l : List α) (h : l.filter p = [g]) : (l.filter p).length ≤ 1 := by
  rw [h]; simp

theorem beq_token_of_filter {g : Token} {codev : String} {tokens : List Token}
    (hfil : tokens.filter (fun t => t.token == codev) = [g]) : g.token = codev := by
  have := pred_of_filter_singleton (fun t => t.token == codev) g tokens hfil
  simpa using this

/-! ## Reduction lemmas for do_token -/

/-- An authorization_code request with `client_id` and `code` present passes the
required-parameter cascade of do_token and reduces to the application lookup,
the grant lookup and the exchange tail. -/
theorem do_token_auth_code_reduce (authenticate : Option String → Option String → Bool)
    (apps : List Application) (tokens : List Token) (mg mt : Int)
    (cid codev : String) (ruri pw un sc verifier : Option String) (now : Int)
    (newId : String) (nu ng : Nat) :
    (do_token authenticate apps tokens mg mt
      { client_id := some cid, code := some codev,
        grant_type := some "authorization_code", password := pw,
        redirect_uri := ruri, username := un, scope := sc,
        code_verifier := verifier } now newId nu ng).1
    = (match moauthdFindApplication apps cid ruri with
       | none => some (.badRequest, tokens)
       | some a => some (exchangeStep a (moauthdFindToken tokens codev) verifier now newId nu ng mg mt tokens)) := rfl

/-- A looked-up grant bound to the resolved application, unexpired and passing
the PKCE condition is exchanged: the access token is created and the grant
deleted. -/
theorem exchangeValidate_ok (app : Application) (g : Token) (verifier : Option String)
    (now : Int) (newId : String) (nu ng : Nat) (mg mt : Int) (tokens : List Token)
    (hbound : g.application = some app) (hexp : now < g.expires)
    (hchal : challengePasses g.challenge verifier) :
    exchangeValidate app g verifier now newId nu ng mg mt tokens
      = (.ok { access_token := newId, token_type := "access", expires_in := mt },
         moauthdDeleteToken
           (tokens ++ [moauthdCreateToken .access (some app) g.user g.scopes newId nu ng now mg mt]) g) := by
  unfold exchangeValidate
  rw [if_neg (by simp [hbound]), if_neg (not_le.mpr hexp)]
  cases hc : g.challenge with
  | none => rfl
  | some c =>
      rw [hc] at hchal
      have hchal' : ∃ v, verifier = some v ∧ serverRecompute v = c := hchal
      obtain ⟨v, hv, heq⟩ := hchal'
      subst hv
      show (if serverRecompute v ≠ c then ((.badRequest : TokenResult), tokens)
            else exchangeFinish app g now newId nu ng mg mt tokens) = _
      rw [if_neg (by simp [heq])]
      rfl

/-! ## Reference checks of the embedded hash and encodings -/

/-- The embedded SHA-256 and httpEncode64_2 agree with the published digest of
"abc" (FIPS 180-4 example), base64-encoded. -/
theorem sha256_abc_reference :
    httpEncode64 (sha256 (strBytes "abc")) = "ungWv48Bz+pBQUDeXa4iI7ADYaOWF3qctBD/YfIAFa0=" := by
  decide

/-- The spec-modelled base64url derivation reproduces the RFC 7636 appendix B
reference challenge for the reference verifier, while the code's
httpEncode64_2 derivation produces the standard-base64 padded variant. -/
theorem rfc7636_reference_values :
    specChallenge rfc7636Verifier = "E9Melhoa2OwvFrEMTJguCHaoeK1t8URWbuGJSstw-cM" ∧
    clientCodeChallenge rfc7636Verifier = "E9Melhoa2OwvFrEMTJguCHaoeK1t8URWbuGJSstw+cM=" := by
  exact ⟨by decide, by decide⟩

/-! ## Claim theorems -/

/-- C2: the claim states that with both `client_id` and `redirect_uri` present,
moauthdFindApplication returns an application only on an exact match of both
fields, so a registered `client_id` with a different `redirect_uri` finds
nothing.  The code's comparator compares `client_id` alone, so the lookup with
`redirect_uri = "https://evil/cb"` still returns the registration whose
redirect URI is `"https://app/cb"`: the code contradicts its own
"Exact match..." comment (server.c line 485). -/
theorem findApplication_ignores_redirect_uri :
    moauthdFindApplication [sampleApp] "app1" (some "https://evil/cb") = some sampleApp ∧
    sampleApp.redirect_uri = "https://app/cb" := by
  exact ⟨by decide, rfl⟩

/-- C4: the claim states that at /token with grant_type=password a request
missing either credential is answered 400 without invoking the Authenticator.
The code's guard (client.c line 842) uses a conjunction, so it fires only when
both are missing: with `username=alice` and no password the Authenticator is
invoked with the NULL password (the trace below is nonempty), while with both
missing it is not. -/
theorem password_grant_missing_credential_authenticates :
    (do_token (fun _ _ => false) [] [] 300 604800
      { client_id := none, code := none, grant_type := some "password",
        password := none, redirect_uri := none, username := some "alice",
        scope := none, code_verifier := none } 0 "N" 0 0)
      = (some (.badRequest, []), [(some "alice", none)]) ∧
    (do_token (fun _ _ => false) [] [] 300 604800
      { client_id := none, code := none, grant_type := some "password",
        password := none, redirect_uri := none, username := none,
        scope := none, code_verifier := none } 0 "N" 0 0)
      = (some (.badRequest, []), []) := by
  exact ⟨rfl, rfl⟩

/-- C5: the claim states that introspecting any stored token — including a
password-grant access token whose application reference is absent — yields a
200 JSON response whose `client_id` is empty when the token has no
application.  The code reads `token->application->client_id` without a NULL
check (client.c line 743), so introspecting such a token dereferences a NULL
pointer instead of answering. -/
theorem introspect_crashes_on_password_grant_token :
    samplePasswordToken.application = none ∧
    do_introspect [samplePasswordToken] none "admin" [] (some "T1") 10 = .crash := by
  exact ⟨rfl, rfl⟩

/-- C9: the claim states that a bare non-negative integer MaxGrantLife or
MaxTokenLife value is read as seconds and configuration loading succeeds.
get_seconds (server.c lines 689-708) maps any suffix other than m/h/d/w —
including the empty suffix of a bare integer — to -1, despite its own comment
"Default units are seconds", so `MaxGrantLife 300` makes load_config fail
while `5m` is accepted as 300 seconds. -/
theorem maxlife_bare_integer_rejected :
    get_seconds "300" = -1 ∧ maxLifeDirective (some "300") = .failed ∧
    get_seconds "5m" = 300 ∧ maxLifeDirective (some "5m") = .ok 300 := by
  exact ⟨rfl, rfl, rfl, rfl⟩

/-- C7 counterexample: the claim states that a request whose Authorization
header uses an unsupported scheme is processed normally and in particular not
answered 401.  For the concrete header "Digest dXNlcjpwYXNz" the code logs the
scheme and attaches no identity, and then — because an Authorization header
was present without establishing an identity (client.c lines 369-373) — it
answers 401, refuting the claim. -/
theorem unsupported_scheme_answered_401 :
    (runClientAuth id (fun _ _ => false) (fun _ => none) [] 0
      (some "Digest dXNlcjpwYXNz")).handled = .unsupported "Digest" ∧
    (runClientAuth id (fun _ _ => false) (fun _ => none) [] 0
      (some "Digest dXNlcjpwYXNz")).unauthorized = true := by
  exact ⟨rfl, rfl⟩

/-- C6 counterexample: the claim states that of two parallel /token exchanges
of the same grant code exactly one succeeds and the other answers 400.  In the
interleaving in which both grant lookups (read-locked) precede either
thread's write-locked create/delete — permitted because consumption is not a
single write-locked region — both exchanges succeed. -/
theorem parallel_same_code_both_succeed :
    (twoParallelExchanges [sampleApp] [sampleGrant] 300 604800 "app1" "G"
      (some "https://app/cb") none 10 "A1" "A2" 1000 1000).1
      = .ok { access_token := "A1", token_type := "access", expires_in := 604800 } ∧
    (twoParallelExchanges [sampleApp] [sampleGrant] 300 604800 "app1" "G"
      (some "https://app/cb") none 10 "A1" "A2" 1000 1000).2.1
      = .ok { access_token := "A2", token_type := "access", expires_in := 604800 } := by
  exact ⟨rfl, rfl⟩

/-- C1 counterexample: the claim names the server's recomputed value
`base64url(sha256(code_verifier))`.  Store the RFC 7636 base64url challenge of
the reference verifier — the value an RFC-compliant client registers, and by
the claim's wording a match — and exchange with that verifier: the code
recomputes the standard-base64 padded variant instead, the comparison fails,
and the response is 400 with no token issued. -/
theorem pkce_base64url_challenge_rejected :
    sampleGrantSpec.challenge = some (specChallenge rfc7636Verifier) ∧
    specChallenge rfc7636Verifier = "E9Melhoa2OwvFrEMTJguCHaoeK1t8URWbuGJSstw-cM" ∧
    serverRecompute rfc7636Verifier = "E9Melhoa2OwvFrEMTJguCHaoeK1t8URWbuGJSstw+cM=" ∧
    (do_token (fun _ _ => false) [sampleApp] [sampleGrantSpec] 300 604800
      { client_id := some "app1", code := some "G",
        grant_type := some "authorization_code", password := none,
        redirect_uri := some "https://app/cb", username := none,
        scope := none, code_verifier := some rfc7636Verifier } 10 "A1" 1000 1000).1
      = some (.badRequest, [sampleGrantSpec]) := by
  exact ⟨rfl, by decide, by decide, by decide⟩

/-- C1 (amended): at /token with grant_type=authorization_code, when the
looked-up grant token carries a PKCE challenge the request must contain
`code_verifier`, and the value the server recomputes — the standard-base64,
`=`-padded httpEncode64_2 encoding of sha256(code_verifier), the same
derivation the client helper uses — must equal the stored challenge: absence
of the verifier or a differing recomputed value yields 400 with the token
store unchanged (no access token issued), and a matching value makes the
exchange proceed. -/
theorem pkce_gate (authenticate : Option String → Option String → Bool)
    (apps : List Application) (tokens : List Token) (mg mt : Int)
    (cid codev : String) (ruri verifier : Option String) (now : Int)
    (newId : String) (nu ng : Nat) (app : Application) (g : Token) (c : String)
    (happ : moauthdFindApplication apps cid ruri = some app)
    (hg : moauthdFindToken tokens codev = some g)
    (hbound : g.application = some app)
    (hexp : now < g.expires)
    (hchal : g.challenge = some c) :
    ((verifier = none ∨ ∃ v, verifier = some v ∧ serverRecompute v ≠ c) →
      (do_token authenticate apps tokens mg mt
        { client_id := some cid, code := some codev,
          grant_type := some "authorization_code", password := none,
          redirect_uri := ruri, username := none, scope := none,
          code_verifier := verifier } now newId nu ng).1
        = some (.badRequest, tokens)) ∧
    (∀ v, verifier = some v → serverRecompute v = c →
      ∃ toks, (do_token authenticate apps tokens mg mt
        { client_id := some cid, code := some codev,
          grant_type := some "authorization_code", password := none,
          redirect_uri := ruri, username := none, scope := none,
          code_verifier := verifier } now newId nu ng).1
        = some (.ok { access_token := newId, token_type := "access", expires_in := mt }, toks)) := by
  have h0 := do_token_auth_code_reduce authenticate apps tokens mg mt cid codev ruri
    none none none verifier now newId nu ng
  rw [happ] at h0
  simp only [hg] at h0
  constructor
  · intro hv
    rw [h0]
    rcases hv with hnone | ⟨v, hv', hne⟩
    · subst hnone
      simp only [exchangeStep, exchangeValidate, hbound, hchal]
      rw [if_neg (by simp), if_neg (not_le.mpr hexp)]
    · subst hv'
      simp only [exchangeStep, exchangeValidate, hbound, hchal]
      rw [if_neg (by simp), if_neg (not_le.mpr hexp), if_pos hne]
  · intro v hv' heq
    subst hv'
    refine ⟨moauthdDeleteToken
      (tokens ++ [moauthdCreateToken .access (some app) g.user g.scopes newId nu ng now mg mt]) g, ?_⟩
    rw [h0]
    simp only [exchangeStep, exchangeValidate, hbound, hchal]
    rw [if_neg (by simp), if_neg (not_le.mpr hexp), if_neg (by simp [heq])]
    rfl

/-- Witness for the C1 theorem: the PKCE-carrying grant `samplePkceGrant`; an
absent verifier is answered 400 with the store unchanged, and the reference
verifier makes the exchange proceed. -/
theorem pkce_gate_witness :
    ((do_token (fun _ _ => false) [sampleApp] [samplePkceGrant] 300 604800
        { client_id := some "app1", code := some "G",
          grant_type := some "authorization_code", password := none,
          redirect_uri := some "https://app/cb", username := none, scope := none,
          code_verifier := none } 10 "A1" 1000 1000).1
      = some (.badRequest, [samplePkceGrant])) ∧
    (∃ toks, (do_token (fun _ _ => false) [sampleApp] [samplePkceGrant] 300 604800
        { client_id := some "app1", code := some "G",
          grant_type := some "authorization_code", password := none,
          redirect_uri := some "https://app/cb", username := none, scope := none,
          code_verifier := some rfc7636Verifier } 10 "A1" 1000 1000).1
      = some (.ok { access_token := "A1", token_type := "access", expires_in := 604800 }, toks)) := by
  constructor
  · exact (pkce_gate (fun _ _ => false) [sampleApp] [samplePkceGrant] 300 604800
      "app1" "G" (some "https://app/cb") none 10 "A1" 1000 1000
      sampleApp samplePkceGrant (clientCodeChallenge rfc7636Verifier)
      (by decide) rfl rfl (by decide) rfl).1 (Or.inl rfl)
  · exact (pkce_gate (fun _ _ => false) [sampleApp] [samplePkceGrant] 300 604800
      "app1" "G" (some "https://app/cb") (some rfc7636Verifier) 10 "A1" 1000 1000
      sampleApp samplePkceGrant (clientCodeChallenge rfc7636Verifier)
      (by decide) rfl rfl (by decide) rfl).2 rfc7636Verifier rfl rfl

/-- C3: every grant token is single-use: whenever a /token
authorization_code exchange succeeds, the token named by `code` has been
removed from the store, so looking the same code up in the resulting store —
as a second exchange would — finds nothing.  The store is assumed to hold at
most one token under that id (the spec's id-uniqueness invariant) and the
fresh access-token id differs from the code. -/
theorem grant_single_use (authenticate : Option String → Option String → Bool)
    (apps : List Application) (tokens : List Token) (mg mt : Int)
    (cid codev : String) (ruri pw un sc verifier : Option String) (now : Int)
    (newId : String) (nu ng : Nat) (j : TokenOkJson) (toks : List Token)
    (huniq : (tokens.filter fun t => t.token == codev).length ≤ 1)
    (hnew : newId ≠ codev)
    (hres : (do_token authenticate apps tokens mg mt
        { client_id := some cid, code := some codev,
          grant_type := some "authorization_code", password := pw,
          redirect_uri := ruri, username := un, scope := sc,
          code_verifier := verifier } now newId nu ng).1
      = some (.ok j, toks)) :
    moauthdFindToken toks codev = none := by
  have h0 := do_token_auth_code_reduce authenticate apps tokens mg mt cid codev ruri pw un sc verifier now newId nu ng
  rw [h0] at hres
  cases happ : moauthdFindApplication apps cid ruri with
  | none => rw [happ] at hres; simp at hres
  | some app =>
    rw [happ] at hres
    have hres2 : some (exchangeStep app (moauthdFindToken tokens codev) verifier now newId nu ng mg mt tokens)
        = some (.ok j, toks) := hres
    cases hg : moauthdFindToken tokens codev with
    | none =>
        rw [hg] at hres2
        exact absurd hres2 (by simp [exchangeStep])
    | some g =>
        rw [hg] at hres2
        have hres3 : some (exchangeValidate app g verifier now newId nu ng mg mt tokens)
            = some (.ok j, toks) := hres2
        have hg' : tokens.find? (fun t => t.token == codev) = some g := hg
        have hgt : g.token = codev := by simpa using List.find?_some hg'
        unfold exchangeValidate at hres3
        split at hres3
        · simp at hres3
        · split at hres3
          · simp at hres3
          · split at hres3
            · split at hres3
              · split at hres3
                · simp at hres3
                · simp only [exchangeFinish, Option.some.injEq, Prod.mk.injEq] at hres3
                  obtain ⟨hj, ht⟩ := hres3
                  subst ht
                  show ((tokens ++ [moauthdCreateToken .access (some app) g.user g.scopes newId nu ng now mg mt]).eraseP
                      (fun u => u.token == g.token)).find? (fun t => t.token == codev) = none
                  rw [hgt]
                  exact eraseP_append_find?_none _ _ (by simp [moauthdCreateToken, hnew]) tokens huniq
              · simp at hres3
            · simp only [exchangeFinish, Option.some.injEq, Prod.mk.injEq] at hres3
              obtain ⟨hj, ht⟩ := hres3
              subst ht
              show ((tokens ++ [moauthdCreateToken .access (some app) g.user g.scopes newId nu ng now mg mt]).eraseP
                  (fun u => u.token == g.token)).find? (fun t => t.token == codev) = none
              rw [hgt]
              exact eraseP_append_find?_none _ _ (by simp [moauthdCreateToken, hnew]) tokens huniq

/-- Witness for the C3 theorem: exchanging the concrete grant "G" succeeds and
the resulting store no longer resolves "G". -/
theorem grant_single_use_witness :
    moauthdFindToken
      (moauthdDeleteToken
        ([sampleGrant] ++ [moauthdCreateToken .access (some sampleApp) sampleGrant.user sampleGrant.scopes "A1" 1000 1000 10 300 604800])
        sampleGrant) "G" = none := by
  exact grant_single_use (fun _ _ => false) [sampleApp] [sampleGrant] 300 604800
    "app1" "G" (some "https://app/cb") none none none none 10 "A1" 1000 1000
    { access_token := "A1", token_type := "access", expires_in := 604800 }
    (moauthdDeleteToken
      ([sampleGrant] ++ [moauthdCreateToken .access (some sampleApp) sampleGrant.user sampleGrant.scopes "A1" 1000 1000 10 300 604800])
      sampleGrant)
    (by decide) (by decide) rfl

/-- C6 (amended): consumption of a grant token at /token is not atomic: the
grant lookup runs under a read lock and the access-token creation and grant
deletion under separate write locks, not one write-locked region.  Run
sequentially, two exchanges of the same code give exactly one success — the
second answers 400 with the store unchanged — but in the interleaving in
which both read-locked lookups precede either thread's write-locked tail,
both parallel exchanges of the same code succeed. -/
theorem consumption_not_atomic (authenticate : Option String → Option String → Bool)
    (apps : List Application) (tokens : List Token) (mg mt : Int)
    (cid codev : String) (ruri : Option String) (now : Int)
    (newId1 newId2 : String) (nu ng : Nat) (app : Application) (g : Token)
    (happ : moauthdFindApplication apps cid ruri = some app)
    (hfil : tokens.filter (fun t => t.token == codev) = [g])
    (hbound : g.application = some app)
    (hexp : now < g.expires)
    (hchal : g.challenge = none)
    (hnew1 : newId1 ≠ codev) :
    ((twoParallelExchanges apps tokens mg mt cid codev ruri none now newId1 newId2 nu ng).1
        = .ok { access_token := newId1, token_type := "access", expires_in := mt } ∧
     (twoParallelExchanges apps tokens mg mt cid codev ruri none now newId1 newId2 nu ng).2.1
        = .ok { access_token := newId2, token_type := "access", expires_in := mt }) ∧
    (∃ toks1,
      (do_token authenticate apps tokens mg mt
        { client_id := some cid, code := some codev,
          grant_type := some "authorization_code", password := none,
          redirect_uri := ruri, username := none, scope := none,
          code_verifier := none } now newId1 nu ng).1
        = some (.ok { access_token := newId1, token_type := "access", expires_in := mt }, toks1) ∧
      (do_token authenticate apps toks1 mg mt
        { client_id := some cid, code := some codev,
          grant_type := some "authorization_code", password := none,
          redirect_uri := ruri, username := none, scope := none,
          code_verifier := none } now newId2 nu ng).1
        = some (.badRequest, toks1)) := by
  have hg : moauthdFindToken tokens codev = some g := find?_of_filter_singleton _ g tokens hfil
  have hchalp : challengePasses g.challenge none := by rw [hchal]; trivial
  have hval1 := exchangeValidate_ok app g none now newId1 nu ng mg mt tokens hbound hexp hchalp
  have e1 : exchangeStep app (moauthdFindToken tokens codev) none now newId1 nu ng mg mt tokens
      = (.ok { access_token := newId1, token_type := "access", expires_in := mt },
         moauthdDeleteToken (tokens ++ [moauthdCreateToken .access (some app) g.user g.scopes newId1 nu ng now mg mt]) g) := by
    rw [hg]
    exact hval1
  have hval2 := exchangeValidate_ok app g none now newId2 nu ng mg mt
      (moauthdDeleteToken (tokens ++ [moauthdCreateToken .access (some app) g.user g.scopes newId1 nu ng now mg mt]) g)
      hbound hexp hchalp
  have e2 : exchangeStep app (moauthdFindToken tokens codev) none now newId2 nu ng mg mt
      (moauthdDeleteToken (tokens ++ [moauthdCreateToken .access (some app) g.user g.scopes newId1 nu ng now mg mt]) g)
      = (.ok { access_token := newId2, token_type := "access", expires_in := mt },
         moauthdDeleteToken
           ((moauthdDeleteToken (tokens ++ [moauthdCreateToken .access (some app) g.user g.scopes newId1 nu ng now mg mt]) g)
            ++ [moauthdCreateToken .access (some app) g.user g.scopes newId2 nu ng now mg mt]) g) := by
    rw [hg]
    exact hval2
  have hpar : twoParallelExchanges apps tokens mg mt cid codev ruri none now newId1 newId2 nu ng
      = (match moauthdFindApplication apps cid ruri with
         | none => (.badRequest, .badRequest, tokens)
         | some a =>
             ((exchangeStep a (moauthdFindToken tokens codev) none now newId1 nu ng mg mt tokens).1,
              (exchangeStep a (moauthdFindToken tokens codev) none now newId2 nu ng mg mt
                 (exchangeStep a (moauthdFindToken tokens codev) none now newId1 nu ng mg mt tokens).2).1,
              (exchangeStep a (moauthdFindToken tokens codev) none now newId2 nu ng mg mt
                 (exchangeStep a (moauthdFindToken tokens codev) none now newId1 nu ng mg mt tokens).2).2)) := rfl
  rw [happ] at hpar
  constructor
  · constructor
    · rw [hpar]
      simp only [e1, e2]
    · rw [hpar]
      simp only [e1, e2]
  · refine ⟨moauthdDeleteToken (tokens ++ [moauthdCreateToken .access (some app) g.user g.scopes newId1 nu ng now mg mt]) g, ?_, ?_⟩
    · have h0 := do_token_auth_code_reduce authenticate apps tokens mg mt cid codev ruri none none none none now newId1 nu ng
      rw [h0, happ]
      simp only [hg]
      show some (exchangeValidate app g none now newId1 nu ng mg mt tokens) = _
      rw [hval1]
    · have h0 := do_token_auth_code_reduce authenticate apps
        (moauthdDeleteToken (tokens ++ [moauthdCreateToken .access (some app) g.user g.scopes newId1 nu ng now mg mt]) g)
        mg mt cid codev ruri none none none none now newId2 nu ng
      rw [h0, happ]
      have hgt : g.token = codev := beq_token_of_filter hfil
      have hfind : moauthdFindToken
          (moauthdDeleteToken (tokens ++ [moauthdCreateToken .access (some app) g.user g.scopes newId1 nu ng now mg mt]) g)
          codev = none := by
        show ((tokens ++ [moauthdCreateToken .access (some app) g.user g.scopes newId1 nu ng now mg mt]).eraseP
            (fun u => u.token == g.token)).find? (fun t => t.token == codev) = none
        rw [hgt]
        exact eraseP_append_find?_none _ _ (by simp [moauthdCreateToken, hnew1]) tokens
          (length_filter_le_one_of_singleton _ g tokens hfil)
      simp only [hfind]
      rfl

/-- Witness for the C6 theorem at the concrete grant "G": both interleaved
exchanges succeed, while the sequential pair gives one success and one 400. -/
theorem consumption_not_atomic_witness :
    ((twoParallelExchanges [sampleApp] [sampleGrant] 300 604800 "app1" "G"
        (some "https://app/cb") none 10 "A1" "A2" 1000 1000).1
        = .ok { access_token := "A1", token_type := "access", expires_in := 604800 } ∧
     (twoParallelExchanges [sampleApp] [sampleGrant] 300 604800 "app1" "G"
        (some "https://app/cb") none 10 "A1" "A2" 1000 1000).2.1
        = .ok { access_token := "A2", token_type := "access", expires_in := 604800 }) ∧
    (∃ toks1,
      (do_token (fun _ _ => false) [sampleApp] [sampleGrant] 300 604800
        { client_id := some "app1", code := some "G",
          grant_type := some "authorization_code", password := none,
          redirect_uri := some "https://app/cb", username := none, scope := none,
          code_verifier := none } 10 "A1" 1000 1000).1
        = some (.ok { access_token := "A1", token_type := "access", expires_in := 604800 }, toks1) ∧
      (do_token (fun _ _ => false) [sampleApp] toks1 300 604800
        { client_id := some "app1", code := some "G",
          grant_type := some "authorization_code", password := none,
          redirect_uri := some "https://app/cb", username := none, scope := none,
          code_verifier := none } 10 "A2" 1000 1000).1
        = some (.badRequest, toks1)) := by
  exact consumption_not_atomic (fun _ _ => false) [sampleApp] [sampleGrant] 300 604800
    "app1" "G" (some "https://app/cb") 10 "A1" "A2" 1000 1000 sampleApp sampleGrant
    (by decide) (by decide) rfl (by decide) rfl (by decide)

/-- C7 (amended): for every request whose Authorization header uses a scheme
other than Basic or Bearer, the server takes the unsupported-scheme branch
(logging the scheme name), attaches no identity — no user, no uid, no token —
and leaves the token store untouched; because an Authorization header was
presented without establishing an identity, the request is then answered 401
rather than processed further. -/
theorem unsupported_scheme_no_identity_401 (decode64 : String → String)
    (authenticate : String → String → Bool)
    (getpwnam : String → Option PwEntry) (tokens : List Token) (now : Int) (hdr : String)
    (hne : hdr ≠ "")
    (hb : leadsWith "Basic ".toList hdr.toList = false)
    (hr : leadsWith "Bearer ".toList hdr.toList = false) :
    runClientAuth decode64 authenticate getpwnam tokens now (some hdr)
      = { handled := .unsupported (schemeOf hdr), remote_user := "", remote_uid := none,
          remote_token := none, tokens := tokens, unauthorized := true } := by
  show runClientAuthHdr decode64 authenticate getpwnam tokens now hdr = _
  unfold runClientAuthHdr
  rw [if_neg hne, if_neg (by simpa using hb), if_neg (by simpa using hr)]

/-- Witness for the C7 theorem at the concrete header "Negotiate abc". -/
theorem unsupported_scheme_no_identity_401_witness :
    runClientAuth id (fun _ _ => false) (fun _ => none) [] 0 (some "Negotiate abc")
      = { handled := .unsupported (schemeOf "Negotiate abc"), remote_user := "",
          remote_uid := none, remote_token := none, tokens := [], unauthorized := true } := by
  exact unsupported_scheme_no_identity_401 id (fun _ _ => false) (fun _ => none) [] 0
    "Negotiate abc" (by decide) (by decide) (by decide)

/-- C8: for every code verifier, the code_challenge the client helper
moauthAuthorize places in the authorization URL is the same derivation the
server recomputes at /token, so a grant whose stored challenge is the
client-derived value is exchangeable with the original verifier: the
round-trip exchange succeeds. -/
theorem client_server_challenge_roundtrip (v : String)
    (authenticate : Option String → Option String → Bool)
    (apps : List Application) (tokens : List Token) (mg mt : Int)
    (cid codev cid2 ruri2 : String) (ruri st sc : Option String) (now : Int)
    (newId : String) (nu ng : Nat) (app : Application) (g : Token)
    (happ : moauthdFindApplication apps cid ruri = some app)
    (hfil : tokens.filter (fun t => t.token == codev) = [g])
    (hbound : g.application = some app)
    (hexp : now < g.expires)
    (hchal : g.challenge = lookupVar (moauthAuthorize_vars cid2 ruri2 st (some v) sc) "code_challenge") :
    lookupVar (moauthAuthorize_vars cid2 ruri2 st (some v) sc) "code_challenge"
      = some (clientCodeChallenge v) ∧
    clientCodeChallenge v = serverRecompute v ∧
    (∃ toks, (do_token authenticate apps tokens mg mt
        { client_id := some cid, code := some codev,
          grant_type := some "authorization_code", password := none,
          redirect_uri := ruri, username := none, scope := none,
          code_verifier := some v } now newId nu ng).1
      = some (.ok { access_token := newId, token_type := "access", expires_in := mt }, toks)) := by
  have hlook : lookupVar (moauthAuthorize_vars cid2 ruri2 st (some v) sc) "code_challenge"
      = some (clientCodeChallenge v) := by
    cases st <;> cases sc <;> rfl
  refine ⟨hlook, rfl, ?_⟩
  have hg : moauthdFindToken tokens codev = some g := find?_of_filter_singleton _ g tokens hfil
  have hchalp : challengePasses g.challenge (some v) := by
    rw [hchal, hlook]
    exact ⟨v, rfl, rfl⟩
  have h0 := do_token_auth_code_reduce authenticate apps tokens mg mt cid codev ruri none none none (some v) now newId nu ng
  have hval := exchangeValidate_ok app g (some v) now newId nu ng mg mt tokens hbound hexp hchalp
  refine ⟨moauthdDeleteToken (tokens ++ [moauthdCreateToken .access (some app) g.user g.scopes newId nu ng now mg mt]) g, ?_⟩
  rw [h0, happ]
  simp only [hg]
  show some (exchangeValidate app g (some v) now newId nu ng mg mt tokens) = _
  rw [hval]

/-- Witness for the C8 theorem: the RFC 7636 reference verifier round-trips
through `samplePkceGrant`, whose stored challenge is exactly the client
helper's `code_challenge` variable. -/
theorem client_server_challenge_roundtrip_witness :
    lookupVar (moauthAuthorize_vars "app1" "https://app/cb" none (some rfc7636Verifier) none) "code_challenge"
      = some (clientCodeChallenge rfc7636Verifier) ∧
    clientCodeChallenge rfc7636Verifier = serverRecompute rfc7636Verifier ∧
    (∃ toks, (do_token (fun _ _ => false) [sampleApp] [samplePkceGrant] 300 604800
        { client_id := some "app1", code := some "G",
          grant_type := some "authorization_code", password := none,
          redirect_uri := some "https://app/cb", username := none, scope := none,
          code_verifier := some rfc7636Verifier } 10 "A1" 1000 1000).1
      = some (.ok { access_token := "A1", token_type := "access", expires_in := 604800 }, toks)) := by
  exact client_server_challenge_roundtrip rfc7636Verifier (fun _ _ => false)
    [sampleApp] [samplePkceGrant] 300 604800 "app1" "G" "app1" "https://app/cb"
    (some "https://app/cb") none none 10 "A1" 1000 1000 sampleApp samplePkceGrant
    (by decide) rfl rfl (by decide) rfl

/-- C10: the validation of the token named by `code` in an authorization_code
exchange checks its existence, its binding to the resolved application, its
expiry and its PKCE challenge, but never its kind: a stored token of any kind
`k` — including an access token — that passes those checks is exchanged for a
new access token and removed from the store. -/
theorem exchange_ignores_token_kind (k : Toktype)
    (authenticate : Option String → Option String → Bool)
    (apps : List Application) (tokens : List Token) (mg mt : Int)
    (cid codev : String) (ruri verifier : Option String) (now : Int)
    (newId : String) (nu ng : Nat) (app : Application) (g : Token)
    (happ : moauthdFindApplication apps cid ruri = some app)
    (hfil : tokens.filter (fun t => t.token == codev) = [g])
    (hk : g.type = k)
    (hbound : g.application = some app)
    (hexp : now < g.expires)
    (hchal : challengePasses g.challenge verifier)
    (hnew : newId ≠ codev) :
    ∃ toks, (do_token authenticate apps tokens mg mt
        { client_id := some cid, code := some codev,
          grant_type := some "authorization_code", password := none,
          redirect_uri := ruri, username := none, scope := none,
          code_verifier := verifier } now newId nu ng).1
      = some (.ok { access_token := newId, token_type := "access", expires_in := mt }, toks)
      ∧ moauthdFindToken toks codev = none := by
  have hg : moauthdFindToken tokens codev = some g :=
    find?_of_filter_singleton _ g tokens hfil
  have h0 := do_token_auth_code_reduce authenticate apps tokens mg mt cid codev ruri
    none none none verifier now newId nu ng
  rw [happ] at h0
  simp only [hg] at h0
  have hval := exchangeValidate_ok app g verifier now newId nu ng mg mt tokens hbound hexp hchal
  refine ⟨moauthdDeleteToken
      (tokens ++ [moauthdCreateToken .access (some app) g.user g.scopes newId nu ng now mg mt]) g, ?_, ?_⟩
  · rw [h0]
    show some (exchangeValidate app g verifier now newId nu ng mg mt tokens) = _
    rw [hval]
  · have hgt : g.token = codev := beq_token_of_filter hfil
    show ((tokens ++ [moauthdCreateToken .access (some app) g.user g.scopes newId nu ng now mg mt]).eraseP
        (fun u => u.token == g.token)).find? (fun t => t.token == codev) = none
    rw [hgt]
    exact eraseP_append_find?_none _ _ (by simp [moauthdCreateToken, hnew]) tokens
      (length_filter_le_one_of_singleton _ g tokens hfil)

/-- Witness for the C10 theorem: the stored ACCESS token "A0" bound to the
application is exchanged like a grant and removed from the store. -/
theorem exchange_ignores_token_kind_witness :
    ∃ toks, (do_token (fun _ _ => false) [sampleApp] [sampleStoredAccess] 300 604800
        { client_id := some "app1", code := some "A0",
          grant_type := some "authorization_code", password := none,
          redirect_uri := some "https://app/cb", username := none, scope := none,
          code_verifier := none } 10 "A1" 1000 1000).1
      = some (.ok { access_token := "A1", token_type := "access", expires_in := 604800 }, toks)
      ∧ moauthdFindToken toks "A0" = none := by
  exact exchange_ignores_token_kind .access (fun _ _ => false) [sampleApp]
    [sampleStoredAccess] 300 604800 "app1" "A0" (some "https://app/cb") none
    10 "A1" 1000 1000 sampleApp sampleStoredAccess
    (by decide) rfl rfl rfl (by decide) trivial (by decide)

end Moauth
